import Mathlib

/-!
Shallow embedding of `torchmultimodal/modules/losses/contrastive_loss_with_temperature.py`.

Embeddings (2-D tensors) are lists of rows over `ℝ`; label vectors are lists of `ℕ`.
The distributed collectives (`torch.distributed.all_gather` and its
gradient-propagating variant) are external-framework dependencies; their value
semantics ("output slot i receives rank i's input") is modelled explicitly, while
gradient propagation is outside the embedding.
-/

namespace ContrastiveLoss

/-- Dot product of two equal-length vectors, the scalar building block of
`torch.matmul` on 2-D inputs. -/
def dotProduct (u v : List ℝ) : ℝ :=
  ((u.zip v).map fun p => p.1 * p.2).sum

/-- Embedding of `Tensor.transpose(0, 1)` on a rectangular 2-D tensor: column `j`
of the input becomes row `j` of the output. -/
def transpose01 (A : List (List ℝ)) : List (List ℝ) :=
  (List.range (A.headD []).length).map fun j => A.map fun row => row.getD j 0

/-- Embedding of `torch.matmul` on 2-D tensors: entry `(i, j)` is the dot product
of row `i` of `A` with column `j` of `B`. -/
def matmul (A B : List (List ℝ)) : List (List ℝ) :=
  A.map fun row => (transpose01 B).map fun col => dotProduct row col

/-- Embedding of boolean-mask indexing `t[mask]` on the first dimension: keeps
exactly the rows at positions where the mask is `true`, in order. -/
def boolMaskIndex {α : Type} : List Bool → List α → List α
  | true :: m, x :: xs => x :: boolMaskIndex m xs
  | false :: m, _ :: xs => boolMaskIndex m xs
  | _, _ => []

/-- Embedding of `torch.nn.functional.cross_entropy` with the default mean
reduction: the mean over rows of `log-sum-exp(row) - row[target]`. -/
noncomputable def cross_entropy (input : List (List ℝ)) (target : List ℕ) : ℝ :=
  (((input.zip target).map fun p =>
      Real.log ((p.1.map Real.exp).sum) - p.1.getD p.2 0).sum) / (input.length : ℝ)

/-- Embedding of `torch.zeros_like` on a 2-D tensor. -/
def zeros_like (x : List (List ℝ)) : List (List ℝ) :=
  x.map fun row => row.map fun _ => (0 : ℝ)

/-- The distributed environment visible to one worker: its rank, the world size,
and the per-worker batches that the collective gather will deliver (slot `i`
holds rank `i`'s local batch). `none` at the call sites below models
`torch.distributed` being unavailable or uninitialized. -/
structure DistEnv where
  worldSize : ℕ
  rank : ℕ
  imgParts : List (List (List ℝ))
  textParts : List (List (List ℝ))

/-- Exchanges the image and text batches held by every worker, which is what the
whole distributed job does when each worker swaps the two arguments. -/
def DistEnv.swapModalities (d : DistEnv) : DistEnv :=
  ⟨d.worldSize, d.rank, d.textParts, d.imgParts⟩

/-- Value semantics of `torch.distributed.nn.functional.all_gather` (the
gradient-propagating variant): returns the list whose slot `i` is rank `i`'s
input. Gradient propagation is outside this embedding. -/
def all_gather_with_backprop (parts : List (List (List ℝ))) : List (List (List ℝ)) :=
  parts

/-- Value semantics of `torch.distributed.all_gather`: overwrites every slot of
the pre-allocated output buffer with the corresponding rank's input, so the
result is the per-rank parts regardless of the buffer contents. Gradients are
not propagated through it; that is outside this embedding. -/
def all_gather_no_backprop (_buffer : List (List (List ℝ)))
    (parts : List (List (List ℝ))) : List (List (List ℝ)) :=
  parts

/-- Embedding of `_gather_embeddings_and_labels`. When `dist` is `none`
(no distributed environment) the inputs pass through unchanged and the labels
are `arange(local_batch_size)`. Otherwise the per-worker batches are gathered
(by one of the two collectives, chosen by `backprop_in_gather`), concatenated
in rank order, and the labels are `local_batch_size * rank + arange(local_batch_size)`. -/
def _gather_embeddings_and_labels (dist : Option DistEnv)
    (image_embeddings text_embeddings : List (List ℝ)) (backprop_in_gather : Bool) :
    List (List ℝ) × List (List ℝ) × List ℕ :=
  match dist with
  | none =>
      (image_embeddings, text_embeddings, List.range image_embeddings.length)
  | some d =>
      let local_batch_size := image_embeddings.length
      let img_embeddings_all_gpus :=
        if backprop_in_gather then all_gather_with_backprop d.imgParts
        else all_gather_no_backprop
          (List.replicate d.worldSize (zeros_like image_embeddings)) d.imgParts
      let text_embeddings_all_gpus :=
        if backprop_in_gather then all_gather_with_backprop d.textParts
        else all_gather_no_backprop
          (List.replicate d.worldSize (zeros_like text_embeddings)) d.textParts
      (img_embeddings_all_gpus.flatten, text_embeddings_all_gpus.flatten,
        (List.range local_batch_size).map fun i => local_batch_size * d.rank + i)

/-- Output bundle of the functional loss, mirroring the dataclass
`ContrastiveLossOutput` with its five fields in declaration order. -/
structure ContrastiveLossOutput where
  loss : ℝ
  image_logits : List (List ℝ)
  text_logits : List (List ℝ)
  image_loss : ℝ
  text_loss : ℝ

/-- Ordered unpacking of the five fields of the output bundle, in declaration
order, as a tuple. -/
def ContrastiveLossOutput.unpack (o : ContrastiveLossOutput) :
    ℝ × List (List ℝ) × List (List ℝ) × ℝ × ℝ :=
  (o.loss, o.image_logits, o.text_logits, o.image_loss, o.text_loss)

/-- Embedding of the functional entry point `contrastive_loss_with_temperature`:
temperature is `exp(logit_scale)`, the logits are the local-by-global similarity
matrices scaled by the temperature, an optional boolean mask filters rows and
labels, and the loss is the average of the two cross-entropies. -/
noncomputable def contrastive_loss_with_temperature (dist : Option DistEnv)
    (image_embeddings text_embeddings : List (List ℝ)) (logit_scale : ℝ)
    (mask : Option (List Bool)) (backprop_in_gather : Bool) : ContrastiveLossOutput :=
  let temperature := Real.exp logit_scale
  let g := _gather_embeddings_and_labels dist image_embeddings text_embeddings
    backprop_in_gather
  let img_embeddings_all_gpus := g.1
  let text_embeddings_all_gpus := g.2.1
  let labels := g.2.2
  let logits_per_image :=
    (matmul image_embeddings (transpose01 text_embeddings_all_gpus)).map
      fun row => row.map fun a => a * temperature
  let logits_per_text :=
    (matmul text_embeddings (transpose01 img_embeddings_all_gpus)).map
      fun row => row.map fun a => a * temperature
  match mask with
  | some m =>
      let lpi := boolMaskIndex m logits_per_image
      let lpt := boolMaskIndex m logits_per_text
      let labs := boolMaskIndex m labels
      let loss_i := cross_entropy lpi labs
      let loss_t := cross_entropy lpt labs
      ⟨(loss_i + loss_t) / 2, lpi, lpt, loss_i, loss_t⟩
  | none =>
      let loss_i := cross_entropy logits_per_image labels
      let loss_t := cross_entropy logits_per_text labels
      ⟨(loss_i + loss_t) / 2, logits_per_image, logits_per_text, loss_i, loss_t⟩

/-- State-passing form of the functional entry point. The body of
`contrastive_loss_with_temperature` contains no write to `logit_scale`, so the
parameter value returned alongside the output is the one received. -/
noncomputable def contrastive_loss_with_temperature_step (dist : Option DistEnv)
    (image_embeddings text_embeddings : List (List ℝ)) (logit_scale : ℝ)
    (mask : Option (List Bool)) (backprop_in_gather : Bool) :
    ℝ × ContrastiveLossOutput :=
  (logit_scale,
    contrastive_loss_with_temperature dist image_embeddings text_embeddings
      logit_scale mask backprop_in_gather)

/-- Default initial value of the logit scale, `log(1 / 0.07)`. -/
noncomputable def DEFAULT_LOGIT_SCALE : ℝ := Real.log (1 / 0.07)

/-- State of the module `ContrastiveLossWithTemperature`: its stored
`logit_scale` parameter. -/
structure ContrastiveLossWithTemperature where
  logit_scale : ℝ

/-- Embedding of `ContrastiveLossWithTemperature.forward`: clamps the stored
`logit_scale` in place to `[0, 4.6052]` (the source comment calls this value
`ln(100)`), then delegates to the functional entry point with the clamped value
and no mask, returning the updated module state and the scalar loss. -/
noncomputable def ContrastiveLossWithTemperature.forward
    (self : ContrastiveLossWithTemperature) (dist : Option DistEnv)
    (image_embeddings text_embeddings : List (List ℝ)) (backprop_in_gather : Bool) :
    ContrastiveLossWithTemperature × ℝ :=
  let clamped := min (max self.logit_scale 0) 4.6052
  (⟨clamped⟩,
    (contrastive_loss_with_temperature dist image_embeddings text_embeddings
      clamped none backprop_in_gather).loss)

lemma hundred_lt_exp_const : (100 : ℝ) < Real.exp 4.6052 := by
  have he : (2.7182818283 : ℝ) < Real.exp 1 := Real.exp_one_gt_d9
  have hs : ∑ i in Finset.range 7, (0.6052 : ℝ) ^ i / (Nat.factorial i) ≤ Real.exp 0.6052 :=
    Real.sum_le_exp_of_nonneg (by norm_num) 7
  have hsval : (183161211 / 100000000 : ℝ)
      ≤ ∑ i in Finset.range 7, (0.6052 : ℝ) ^ i / (Nat.factorial i) := by
    simp [Finset.sum_range_succ, Nat.factorial]
    norm_num
  have hp : (2.7182818283 : ℝ) ^ 4 ≤ Real.exp 1 ^ 4 :=
    pow_le_pow_left₀ (by norm_num) he.le 4
  have hexp : Real.exp 1 ^ 4 * Real.exp 0.6052 = Real.exp 4.6052 := by
    rw [← Real.exp_nat_mul, ← Real.exp_add]
    norm_num
  calc (100 : ℝ) < 2.7182818283 ^ 4 * (183161211 / 100000000) := by norm_num
    _ ≤ Real.exp 1 ^ 4 * Real.exp 0.6052 :=
        mul_le_mul hp (le_trans hsval hs) (by norm_num) (by positivity)
    _ = Real.exp 4.6052 := hexp

lemma log_hundred_lt_clamp_max : Real.log 100 < 4.6052 :=
  (Real.log_lt_iff_lt_exp (by norm_num)).mpr hundred_lt_exp_const

lemma clamp_ten_eq : min (max (10 : ℝ) 0) 4.6052 = 4.6052 := by
  have hmax : max (10 : ℝ) 0 = 10 := by norm_num
  rw [hmax, min_eq_right]
  norm_num

/-- C1 (amended): after one call to `ContrastiveLossWithTemperature.forward`, the
stored `logit_scale` lies within `[0, 4.6052]` inclusive, for every initial value.
The code clamps to the literal `4.6052`, which is slightly larger than `ln(100)`,
so the interval `[0, ln(100)]` of the original claim is not quite what the code
enforces. -/
theorem C1_forward_clamps_to_literal_interval (self : ContrastiveLossWithTemperature)
    (dist : Option DistEnv) (image_embeddings text_embeddings : List (List ℝ))
    (backprop_in_gather : Bool) :
    0 ≤ (self.forward dist image_embeddings text_embeddings
          backprop_in_gather).1.logit_scale
      ∧ (self.forward dist image_embeddings text_embeddings
          backprop_in_gather).1.logit_scale ≤ 4.6052 := by
  constructor
  · exact le_min (le_max_right _ _) (by norm_num)
  · exact min_le_right _ _

/-- C1 counterexample: with `logit_scale` initialized to `10.0`, after one forward
call the stored value is the clamp bound `4.6052`, which is strictly greater than
`ln(100)`; so the stored value does not lie within `[0, ln(100)]` as claimed. -/
theorem C1_counterexample :
    ¬ (((ContrastiveLossWithTemperature.mk 10).forward none [[1]] [[1]]
          true).1.logit_scale ≤ Real.log 100) := by
  intro h
  have hv : ((ContrastiveLossWithTemperature.mk 10).forward none [[1]] [[1]]
      true).1.logit_scale = 4.6052 := clamp_ten_eq
  rw [hv] at h
  exact absurd h (not_le.mpr log_hundred_lt_clamp_max)

/-- C3: when no distributed environment is active, `_gather_embeddings_and_labels`
returns the image and text batches unchanged along with the label vector
`[0, 1, ..., N-1]` for a local batch of size `N`. -/
theorem C3_single_worker_gather (image_embeddings text_embeddings : List (List ℝ))
    (backprop_in_gather : Bool) :
    _gather_embeddings_and_labels none image_embeddings text_embeddings
        backprop_in_gather
      = (image_embeddings, text_embeddings, List.range image_embeddings.length) :=
  rfl

lemma gather_some_eq (d : DistEnv) (image_embeddings text_embeddings : List (List ℝ))
    (backprop_in_gather : Bool) :
    _gather_embeddings_and_labels (some d) image_embeddings text_embeddings
        backprop_in_gather
      = (d.imgParts.flatten, d.textParts.flatten,
          (List.range image_embeddings.length).map
            fun i => image_embeddings.length * d.rank + i) := by
  cases backprop_in_gather <;> rfl

/-- C4: in distributed mode with `W` workers each holding a local batch of size
`B`, the gathered global image and text arrays are the concatenations of the
per-worker pieces in ascending rank order with `W * B` rows, and the worker at
rank `r` receives the label vector `[r*B, r*B+1, ..., r*B+B-1]`. -/
theorem C4_distributed_gather (d : DistEnv)
    (image_embeddings text_embeddings : List (List ℝ)) (backprop_in_gather : Bool)
    (W B : ℕ)
    (himg : d.imgParts.map List.length = List.replicate W B)
    (htxt : d.textParts.map List.length = List.replicate W B)
    (hlocal : image_embeddings.length = B) :
    (_gather_embeddings_and_labels (some d) image_embeddings text_embeddings
        backprop_in_gather).1 = d.imgParts.flatten
    ∧ (_gather_embeddings_and_labels (some d) image_embeddings text_embeddings
        backprop_in_gather).2.1 = d.textParts.flatten
    ∧ (_gather_embeddings_and_labels (some d) image_embeddings text_embeddings
        backprop_in_gather).1.length = W * B
    ∧ (_gather_embeddings_and_labels (some d) image_embeddings text_embeddings
        backprop_in_gather).2.1.length = W * B
    ∧ (_gather_embeddings_and_labels (some d) image_embeddings text_embeddings
        backprop_in_gather).2.2
      = (List.range B).map fun i => d.rank * B + i := by
  rw [gather_some_eq]
  refine ⟨rfl, rfl, ?_, ?_, ?_⟩
  · rw [List.length_flatten, himg, List.sum_const_nat]
  · rw [List.length_flatten, htxt, List.sum_const_nat]
  · rw [hlocal]
    have harith : (fun i => B * d.rank + i) = fun i => d.rank * B + i := by
      funext i
      rw [Nat.mul_comm]
    rw [harith]

/-- Witness for C4 at a concrete two-worker configuration with batch size one,
seen from the worker at rank 1. -/
theorem C4_witness :
    (([[[(1 : ℝ)]], [[2]]] : List (List (List ℝ))).map List.length
        = List.replicate 2 1)
    ∧ (([[[(3 : ℝ)]], [[4]]] : List (List (List ℝ))).map List.length
        = List.replicate 2 1)
    ∧ ([[(2 : ℝ)]] : List (List ℝ)).length = 1
    ∧ ((_gather_embeddings_and_labels
          (some ⟨2, 1, [[[1]], [[2]]], [[[3]], [[4]]]⟩) [[2]] [[4]] true).1
        = ([[[(1 : ℝ)]], [[2]]] : List (List (List ℝ))).flatten
      ∧ (_gather_embeddings_and_labels
          (some ⟨2, 1, [[[1]], [[2]]], [[[3]], [[4]]]⟩) [[2]] [[4]] true).2.1
        = ([[[(3 : ℝ)]], [[4]]] : List (List (List ℝ))).flatten
      ∧ (_gather_embeddings_and_labels
          (some ⟨2, 1, [[[1]], [[2]]], [[[3]], [[4]]]⟩) [[2]] [[4]] true).1.length
        = 2 * 1
      ∧ (_gather_embeddings_and_labels
          (some ⟨2, 1, [[[1]], [[2]]], [[[3]], [[4]]]⟩) [[2]] [[4]] true).2.1.length
        = 2 * 1
      ∧ (_gather_embeddings_and_labels
          (some ⟨2, 1, [[[1]], [[2]]], [[[3]], [[4]]]⟩) [[2]] [[4]] true).2.2
        = (List.range 1).map fun i => 1 * 1 + i) :=
  ⟨rfl, rfl, rfl,
    C4_distributed_gather ⟨2, 1, [[[1]], [[2]]], [[[3]], [[4]]]⟩ [[2]] [[4]] true 2 1
      rfl rfl rfl⟩

/-- C2: for every inputs, mask and logit scale, the `loss` field returned by
`contrastive_loss_with_temperature` equals exactly the average of the two
per-direction cross-entropy losses it also returns. -/
theorem C2_loss_is_average (dist : Option DistEnv)
    (image_embeddings text_embeddings : List (List ℝ)) (logit_scale : ℝ)
    (mask : Option (List Bool)) (backprop_in_gather : Bool) :
    (contrastive_loss_with_temperature dist image_embeddings text_embeddings
        logit_scale mask backprop_in_gather).loss
      = ((contrastive_loss_with_temperature dist image_embeddings text_embeddings
            logit_scale mask backprop_in_gather).image_loss
          + (contrastive_loss_with_temperature dist image_embeddings text_embeddings
              logit_scale mask backprop_in_gather).text_loss) / 2 := by
  cases mask <;> rfl

lemma transpose01_length (A : List (List ℝ)) :
    (transpose01 A).length = (A.headD []).length := by
  simp [transpose01]

lemma transpose01_headD_length (A : List (List ℝ)) (h : 0 < (A.headD []).length) :
    ((transpose01 A).headD []).length = A.length := by
  obtain ⟨m, hm⟩ := Nat.exists_eq_succ_of_ne_zero (Nat.pos_iff_ne_zero.mp h)
  unfold transpose01
  rw [hm, List.range_succ_eq_map]
  simp

lemma matmul_mem_row_length (A B : List (List ℝ)) (row : List ℝ)
    (h : row ∈ matmul A B) : row.length = (transpose01 B).length := by
  unfold matmul at h
  obtain ⟨a, _, rfl⟩ := List.mem_map.mp h
  simp

/-- C5: `contrastive_loss_with_temperature` (without a mask) forms
`logits_per_image` as the matrix product of the local image embeddings with the
transpose of the gathered text embeddings, multiplied (not divided) by the
temperature `exp(logit_scale)`, with shape `(local_batch, global_batch)`;
`logits_per_text` is the symmetric construction. The positivity hypotheses say
the gathered batches have a nonempty first row (positive embedding dimension). -/
theorem C5_logits_formula_and_shape (dist : Option DistEnv)
    (image_embeddings text_embeddings : List (List ℝ)) (logit_scale : ℝ)
    (backprop_in_gather : Bool)
    (hT : 0 < (((_gather_embeddings_and_labels dist image_embeddings text_embeddings
          backprop_in_gather).2.1).headD []).length)
    (hI : 0 < (((_gather_embeddings_and_labels dist image_embeddings text_embeddings
          backprop_in_gather).1).headD []).length) :
    (contrastive_loss_with_temperature dist image_embeddings text_embeddings
        logit_scale none backprop_in_gather).image_logits
      = (matmul image_embeddings
          (transpose01 (_gather_embeddings_and_labels dist image_embeddings
            text_embeddings backprop_in_gather).2.1)).map
          (fun row => row.map fun a => a * Real.exp logit_scale)
    ∧ (contrastive_loss_with_temperature dist image_embeddings text_embeddings
        logit_scale none backprop_in_gather).text_logits
      = (matmul text_embeddings
          (transpose01 (_gather_embeddings_and_labels dist image_embeddings
            text_embeddings backprop_in_gather).1)).map
          (fun row => row.map fun a => a * Real.exp logit_scale)
    ∧ (contrastive_loss_with_temperature dist image_embeddings text_embeddings
        logit_scale none backprop_in_gather).image_logits.length
      = image_embeddings.length
    ∧ (∀ row ∈ (contrastive_loss_with_temperature dist image_embeddings
          text_embeddings logit_scale none backprop_in_gather).image_logits,
        row.length = (_gather_embeddings_and_labels dist image_embeddings
          text_embeddings backprop_in_gather).2.1.length)
    ∧ (contrastive_loss_with_temperature dist image_embeddings text_embeddings
        logit_scale none backprop_in_gather).text_logits.length
      = text_embeddings.length
    ∧ (∀ row ∈ (contrastive_loss_with_temperature dist image_embeddings
          text_embeddings logit_scale none backprop_in_gather).text_logits,
        row.length = (_gather_embeddings_and_labels dist image_embeddings
          text_embeddings backprop_in_gather).1.length) := by
  refine ⟨rfl, rfl, by simp [contrastive_loss_with_temperature, matmul], ?_,
    by simp [contrastive_loss_with_temperature, matmul], ?_⟩
  · intro row hrow
    obtain ⟨r, hr, rfl⟩ := List.mem_map.mp hrow
    rw [List.length_map, matmul_mem_row_length _ _ _ hr, transpose01_length,
      transpose01_headD_length _ hT]
  · intro row hrow
    obtain ⟨r, hr, rfl⟩ := List.mem_map.mp hrow
    rw [List.length_map, matmul_mem_row_length _ _ _ hr, transpose01_length,
      transpose01_headD_length _ hI]

/-- Witness for C5 at a concrete single-worker input with batch size one and
embedding dimension one. -/
theorem C5_witness :
    (0 < (((_gather_embeddings_and_labels none [[(1 : ℝ)]] [[1]] true).2.1).headD
        []).length)
    ∧ (0 < (((_gather_embeddings_and_labels none [[(1 : ℝ)]] [[1]] true).1).headD
        []).length)
    ∧ ((contrastive_loss_with_temperature none [[(1 : ℝ)]] [[1]] 0 none
          true).image_logits
        = (matmul [[(1 : ℝ)]]
            (transpose01 (_gather_embeddings_and_labels none [[(1 : ℝ)]] [[1]]
              true).2.1)).map (fun row => row.map fun a => a * Real.exp 0)
      ∧ (contrastive_loss_with_temperature none [[(1 : ℝ)]] [[1]] 0 none
          true).text_logits
        = (matmul [[(1 : ℝ)]]
            (transpose01 (_gather_embeddings_and_labels none [[(1 : ℝ)]] [[1]]
              true).1)).map (fun row => row.map fun a => a * Real.exp 0)
      ∧ (contrastive_loss_with_temperature none [[(1 : ℝ)]] [[1]] 0 none
          true).image_logits.length = ([[(1 : ℝ)]] : List (List ℝ)).length
      ∧ (∀ row ∈ (contrastive_loss_with_temperature none [[(1 : ℝ)]] [[1]] 0 none
            true).image_logits,
          row.length
            = (_gather_embeddings_and_labels none [[(1 : ℝ)]] [[1]] true).2.1.length)
      ∧ (contrastive_loss_with_temperature none [[(1 : ℝ)]] [[1]] 0 none
          true).text_logits.length = ([[(1 : ℝ)]] : List (List ℝ)).length
      ∧ (∀ row ∈ (contrastive_loss_with_temperature none [[(1 : ℝ)]] [[1]] 0 none
            true).text_logits,
          row.length
            = (_gather_embeddings_and_labels none [[(1 : ℝ)]] [[1]] true).1.length)) :=
  ⟨by decide, by decide,
    C5_logits_formula_and_shape none [[1]] [[1]] 0 true (by decide) (by decide)⟩

/-- C8: for the same inputs and distributed configuration, the entire output of
`contrastive_loss_with_temperature` with `backprop_in_gather = false` is equal to
the output with `backprop_in_gather = true`: the two gather variants deliver the
same values (they differ only in gradient propagation, which is outside this
value-level embedding). -/
theorem C8_backprop_flag_values_equal (dist : Option DistEnv)
    (image_embeddings text_embeddings : List (List ℝ)) (logit_scale : ℝ)
    (mask : Option (List Bool)) :
    contrastive_loss_with_temperature dist image_embeddings text_embeddings
        logit_scale mask true
      = contrastive_loss_with_temperature dist image_embeddings text_embeddings
          logit_scale mask false := by
  cases dist <;> cases mask <;> rfl

lemma boolMaskIndex_sublist {α : Type} (m : List Bool) (xs : List α) :
    List.Sublist (boolMaskIndex m xs) xs := by
  induction m generalizing xs with
  | nil =>
    cases xs <;> simp [boolMaskIndex]
  | cons b m ih =>
    cases xs with
    | nil =>
      cases b <;> simp [boolMaskIndex]
    | cons x xs =>
      cases b with
      | false =>
        show List.Sublist (boolMaskIndex m xs) (x :: xs)
        exact List.Sublist.cons x (ih xs)
      | true =>
        show List.Sublist (x :: boolMaskIndex m xs) (x :: xs)
        exact List.Sublist.cons₂ x (ih xs)

lemma boolMaskIndex_length {α : Type} (m : List Bool) (xs : List α)
    (h : m.length ≤ xs.length) :
    (boolMaskIndex m xs).length = m.count true := by
  induction m generalizing xs with
  | nil => simp [boolMaskIndex]
  | cons b m ih =>
    cases xs with
    | nil => simp at h
    | cons x xs =>
      have h' : m.length ≤ xs.length := Nat.succ_le_succ_iff.mp h
      cases b <;> simp [boolMaskIndex, ih xs h', List.count_cons]

lemma unmasked_image_logits_length (dist : Option DistEnv)
    (image_embeddings text_embeddings : List (List ℝ)) (logit_scale : ℝ)
    (backprop_in_gather : Bool) :
    (contrastive_loss_with_temperature dist image_embeddings text_embeddings
        logit_scale none backprop_in_gather).image_logits.length
      = image_embeddings.length := by
  simp [contrastive_loss_with_temperature, matmul]

lemma unmasked_text_logits_length (dist : Option DistEnv)
    (image_embeddings text_embeddings : List (List ℝ)) (logit_scale : ℝ)
    (backprop_in_gather : Bool) :
    (contrastive_loss_with_temperature dist image_embeddings text_embeddings
        logit_scale none backprop_in_gather).text_logits.length
      = text_embeddings.length := by
  simp [contrastive_loss_with_temperature, matmul]

lemma gather_labels_length (dist : Option DistEnv)
    (image_embeddings text_embeddings : List (List ℝ)) (backprop_in_gather : Bool) :
    (_gather_embeddings_and_labels dist image_embeddings text_embeddings
        backprop_in_gather).2.2.length = image_embeddings.length := by
  cases dist with
  | none => simp [_gather_embeddings_and_labels]
  | some d => rw [gather_some_eq]; simp

/-- C6: with a boolean mask whose length equals the local batch size, the output
logits of `contrastive_loss_with_temperature` are exactly the rows of the
unmasked logit matrices at the `true` positions of the mask, in their original
relative order (they form sublists), with row count equal to the number of
`true` entries; the label vector is filtered the same way. -/
theorem C6_mask_filters_rows (dist : Option DistEnv)
    (image_embeddings text_embeddings : List (List ℝ)) (logit_scale : ℝ)
    (backprop_in_gather : Bool) (m : List Bool)
    (hmi : m.length = image_embeddings.length)
    (hmt : m.length = text_embeddings.length) :
    (contrastive_loss_with_temperature dist image_embeddings text_embeddings
        logit_scale (some m) backprop_in_gather).image_logits
      = boolMaskIndex m (contrastive_loss_with_temperature dist image_embeddings
          text_embeddings logit_scale none backprop_in_gather).image_logits
    ∧ (contrastive_loss_with_temperature dist image_embeddings text_embeddings
        logit_scale (some m) backprop_in_gather).text_logits
      = boolMaskIndex m (contrastive_loss_with_temperature dist image_embeddings
          text_embeddings logit_scale none backprop_in_gather).text_logits
    ∧ (contrastive_loss_with_temperature dist image_embeddings text_embeddings
        logit_scale (some m) backprop_in_gather).image_logits.length
      = m.count true
    ∧ (contrastive_loss_with_temperature dist image_embeddings text_embeddings
        logit_scale (some m) backprop_in_gather).text_logits.length
      = m.count true
    ∧ List.Sublist
        (contrastive_loss_with_temperature dist image_embeddings text_embeddings
          logit_scale (some m) backprop_in_gather).image_logits
        (contrastive_loss_with_temperature dist image_embeddings text_embeddings
          logit_scale none backprop_in_gather).image_logits
    ∧ List.Sublist
        (contrastive_loss_with_temperature dist image_embeddings text_embeddings
          logit_scale (some m) backprop_in_gather).text_logits
        (contrastive_loss_with_temperature dist image_embeddings text_embeddings
          logit_scale none backprop_in_gather).text_logits
    ∧ (boolMaskIndex m (_gather_embeddings_and_labels dist image_embeddings
          text_embeddings backprop_in_gather).2.2).length = m.count true
    ∧ List.Sublist
        (boolMaskIndex m (_gather_embeddings_and_labels dist image_embeddings
          text_embeddings backprop_in_gather).2.2)
        (_gather_embeddings_and_labels dist image_embeddings text_embeddings
          backprop_in_gather).2.2 := by
  have h1 : (contrastive_loss_with_temperature dist image_embeddings
      text_embeddings logit_scale (some m) backprop_in_gather).image_logits
    = boolMaskIndex m (contrastive_loss_with_temperature dist image_embeddings
        text_embeddings logit_scale none backprop_in_gather).image_logits := rfl
  have h2 : (contrastive_loss_with_temperature dist image_embeddings
      text_embeddings logit_scale (some m) backprop_in_gather).text_logits
    = boolMaskIndex m (contrastive_loss_with_temperature dist image_embeddings
        text_embeddings logit_scale none backprop_in_gather).text_logits := rfl
  refine ⟨h1, h2, ?_, ?_, ?_, ?_, ?_, ?_⟩
  · rw [h1]
    exact boolMaskIndex_length _ _
      (by rw [unmasked_image_logits_length, ← hmi])
  · rw [h2]
    exact boolMaskIndex_length _ _
      (by rw [unmasked_text_logits_length, ← hmt])
  · rw [h1]
    exact boolMaskIndex_sublist _ _
  · rw [h2]
    exact boolMaskIndex_sublist _ _
  · exact boolMaskIndex_length _ _ (by rw [gather_labels_length, ← hmi])
  · exact boolMaskIndex_sublist _ _

/-- Witness for C6 at a concrete single-worker input with batch size two and a
mask keeping only the first row. -/
theorem C6_witness :
    ([true, false].length = ([[(1 : ℝ)], [0]] : List (List ℝ)).length)
    ∧ ([true, false].length = ([[(1 : ℝ)], [0]] : List (List ℝ)).length)
    ∧ ((contrastive_loss_with_temperature none [[(1 : ℝ)], [0]] [[1], [0]] 0
          (some [true, false]) true).image_logits
        = boolMaskIndex [true, false]
            (contrastive_loss_with_temperature none [[(1 : ℝ)], [0]] [[1], [0]] 0
              none true).image_logits
      ∧ (contrastive_loss_with_temperature none [[(1 : ℝ)], [0]] [[1], [0]] 0
          (some [true, false]) true).text_logits
        = boolMaskIndex [true, false]
            (contrastive_loss_with_temperature none [[(1 : ℝ)], [0]] [[1], [0]] 0
              none true).text_logits
      ∧ (contrastive_loss_with_temperature none [[(1 : ℝ)], [0]] [[1], [0]] 0
          (some [true, false]) true).image_logits.length
        = [true, false].count true
      ∧ (contrastive_loss_with_temperature none [[(1 : ℝ)], [0]] [[1], [0]] 0
          (some [true, false]) true).text_logits.length
        = [true, false].count true
      ∧ List.Sublist
          (contrastive_loss_with_temperature none [[(1 : ℝ)], [0]] [[1], [0]] 0
            (some [true, false]) true).image_logits
          (contrastive_loss_with_temperature none [[(1 : ℝ)], [0]] [[1], [0]] 0
            none true).image_logits
      ∧ List.Sublist
          (contrastive_loss_with_temperature none [[(1 : ℝ)], [0]] [[1], [0]] 0
            (some [true, false]) true).text_logits
          (contrastive_loss_with_temperature none [[(1 : ℝ)], [0]] [[1], [0]] 0
            none true).text_logits
      ∧ (boolMaskIndex [true, false]
            (_gather_embeddings_and_labels none [[(1 : ℝ)], [0]] [[1], [0]]
              true).2.2).length = [true, false].count true
      ∧ List.Sublist
          (boolMaskIndex [true, false]
            (_gather_embeddings_and_labels none [[(1 : ℝ)], [0]] [[1], [0]]
              true).2.2)
          (_gather_embeddings_and_labels none [[(1 : ℝ)], [0]] [[1], [0]]
            true).2.2) :=
  ⟨rfl, rfl,
    C6_mask_filters_rows none [[1], [0]] [[1], [0]] 0 true [true, false] rfl rfl⟩

lemma gather_swap (dist : Option DistEnv) (image_embeddings text_embeddings : List (List ℝ))
    (backprop_in_gather : Bool) (h : image_embeddings.length = text_embeddings.length) :
    _gather_embeddings_and_labels (Option.map DistEnv.swapModalities dist)
        text_embeddings image_embeddings backprop_in_gather
      = ((_gather_embeddings_and_labels dist image_embeddings text_embeddings
            backprop_in_gather).2.1,
          (_gather_embeddings_and_labels dist image_embeddings text_embeddings
            backprop_in_gather).1,
          (_gather_embeddings_and_labels dist image_embeddings text_embeddings
            backprop_in_gather).2.2) := by
  cases dist with
  | none => simp [_gather_embeddings_and_labels, h]
  | some d =>
    rw [show Option.map DistEnv.swapModalities (some d) = some d.swapModalities from
      rfl, gather_some_eq, gather_some_eq]
    simp [DistEnv.swapModalities, h]

/-- C7: swapping the `image_embeddings` and `text_embeddings` arguments (with
every worker of the distributed environment swapping its two batches
accordingly) leaves the final averaged loss unchanged, for every mask and logit
scale, when the two local batches have the same size: the two per-direction
losses exchange roles and their average is order-independent. -/
theorem C7_swap_arguments_loss_unchanged (dist : Option DistEnv)
    (image_embeddings text_embeddings : List (List ℝ)) (logit_scale : ℝ)
    (mask : Option (List Bool)) (backprop_in_gather : Bool)
    (h : image_embeddings.length = text_embeddings.length) :
    (contrastive_loss_with_temperature dist image_embeddings text_embeddings
        logit_scale mask backprop_in_gather).loss
      = (contrastive_loss_with_temperature (Option.map DistEnv.swapModalities dist)
          text_embeddings image_embeddings logit_scale mask
          backprop_in_gather).loss := by
  have hg := gather_swap dist image_embeddings text_embeddings backprop_in_gather h
  cases mask with
  | none =>
    simp only [contrastive_loss_with_temperature, hg]
    ring
  | some m =>
    simp only [contrastive_loss_with_temperature, hg]
    ring

/-- Witness for C7 at a concrete single-worker input with two samples per
modality. -/
theorem C7_witness :
    (([[(1 : ℝ)], [0]] : List (List ℝ)).length
        = ([[(0 : ℝ)], [1]] : List (List ℝ)).length)
    ∧ (contrastive_loss_with_temperature none [[(1 : ℝ)], [0]] [[0], [1]] 1 none
          true).loss
      = (contrastive_loss_with_temperature (Option.map DistEnv.swapModalities none)
          [[(0 : ℝ)], [1]] [[1], [0]] 1 none true).loss :=
  ⟨rfl, C7_swap_arguments_loss_unchanged none [[1], [0]] [[0], [1]] 1 none true rfl⟩

/-- C9: the value returned by `contrastive_loss_with_temperature` is a record of
exactly five quantities in declared order — the averaged loss, the two logit
matrices, and the two per-direction losses — whose ordered unpacking yields them
as a tuple, where the two per-direction losses are the cross-entropies of the
two logit matrices in the bundle against a common label vector and the loss is
their average. -/
theorem C9_output_bundle (dist : Option DistEnv)
    (image_embeddings text_embeddings : List (List ℝ)) (logit_scale : ℝ)
    (mask : Option (List Bool)) (backprop_in_gather : Bool) :
    ((contrastive_loss_with_temperature dist image_embeddings text_embeddings
        logit_scale mask backprop_in_gather).unpack
      = ((contrastive_loss_with_temperature dist image_embeddings text_embeddings
            logit_scale mask backprop_in_gather).loss,
          (contrastive_loss_with_temperature dist image_embeddings text_embeddings
            logit_scale mask backprop_in_gather).image_logits,
          (contrastive_loss_with_temperature dist image_embeddings text_embeddings
            logit_scale mask backprop_in_gather).text_logits,
          (contrastive_loss_with_temperature dist image_embeddings text_embeddings
            logit_scale mask backprop_in_gather).image_loss,
          (contrastive_loss_with_temperature dist image_embeddings text_embeddings
            logit_scale mask backprop_in_gather).text_loss))
    ∧ ∃ labs : List ℕ,
        (contrastive_loss_with_temperature dist image_embeddings text_embeddings
            logit_scale mask backprop_in_gather).image_loss
          = cross_entropy (contrastive_loss_with_temperature dist image_embeddings
              text_embeddings logit_scale mask backprop_in_gather).image_logits labs
        ∧ (contrastive_loss_with_temperature dist image_embeddings text_embeddings
            logit_scale mask backprop_in_gather).text_loss
          = cross_entropy (contrastive_loss_with_temperature dist image_embeddings
              text_embeddings logit_scale mask backprop_in_gather).text_logits labs
        ∧ (contrastive_loss_with_temperature dist image_embeddings text_embeddings
            logit_scale mask backprop_in_gather).loss
          = ((contrastive_loss_with_temperature dist image_embeddings
                text_embeddings logit_scale mask backprop_in_gather).image_loss
              + (contrastive_loss_with_temperature dist image_embeddings
                  text_embeddings logit_scale mask backprop_in_gather).text_loss)
            / 2 := by
  refine ⟨rfl, ?_⟩
  cases mask with
  | none =>
    exact ⟨(_gather_embeddings_and_labels dist image_embeddings text_embeddings
      backprop_in_gather).2.2, rfl, rfl, rfl⟩
  | some m =>
    exact ⟨boolMaskIndex m (_gather_embeddings_and_labels dist image_embeddings
      text_embeddings backprop_in_gather).2.2, rfl, rfl, rfl⟩

/-- C10: the functional entry point never mutates its `logit_scale` argument and
applies no clamping along that path: the state-passing form returns the scale it
received, an out-of-range scale such as `10` is used as-is (the logits are scaled
by `exp 10`, which differs from the exponential of the clamped value), and the
clamp to `4.6052` happens only in `ContrastiveLossWithTemperature.forward`. -/
theorem C10_functional_path_does_not_clamp :
    (∀ (dist : Option DistEnv) (image_embeddings text_embeddings : List (List ℝ))
        (logit_scale : ℝ) (mask : Option (List Bool)) (backprop_in_gather : Bool),
      (contrastive_loss_with_temperature_step dist image_embeddings text_embeddings
          logit_scale mask backprop_in_gather).1 = logit_scale
        ∧ (contrastive_loss_with_temperature_step dist image_embeddings
              text_embeddings logit_scale mask backprop_in_gather).2
            = contrastive_loss_with_temperature dist image_embeddings text_embeddings
                logit_scale mask backprop_in_gather)
    ∧ (contrastive_loss_with_temperature none [[1]] [[1]] 10 none true).image_logits
        = [[Real.exp 10]]
    ∧ Real.exp 10 ≠ Real.exp (min (max (10 : ℝ) 0) 4.6052)
    ∧ ((ContrastiveLossWithTemperature.mk 10).forward none [[1]] [[1]]
          true).1.logit_scale = 4.6052 := by
  refine ⟨fun dist img txt s mask bp => ⟨rfl, rfl⟩, ?_, ?_, ?_⟩
  · norm_num [contrastive_loss_with_temperature, _gather_embeddings_and_labels, matmul,
      transpose01, dotProduct, List.range_succ]
  · intro h
    rw [Real.exp_eq_exp] at h
    have hmax : max (10 : ℝ) 0 = 10 := by norm_num
    rw [hmax] at h
    have hmin : min (10 : ℝ) 4.6052 = 4.6052 := by
      rw [min_eq_right]
      norm_num
    rw [hmin] at h
    norm_num at h
  · show min (max (10 : ℝ) 0) 4.6052 = 4.6052
    have hmax : max (10 : ℝ) 0 = 10 := by norm_num
    rw [hmax, min_eq_right]
    norm_num

end ContrastiveLoss
